import Mathlib

/-!
Verification of the esp-open-rtos SSD1306 OLED driver (extras/ssd1306).

The repository ships the interface `src/extras/ssd1306/ssd1306.h`; the
translation below embeds the data model of that header (protocol enum,
device descriptor, addressing-mode enum) and, since the implementation
file `ssd1306.c` is not part of the sources provided, models each
operation's behaviour from the specification (spec.md sections 2-8):
the Transport Adapter, the Bulk Framebuffer Upload and the Bitmap
Converter.  The bus layer is embedded as an explicit state: an
environment `env : Nat -> Int` giving the result code of the i-th bus
transaction (0 = success, as in the C int convention), a counter of bus
transactions attempted so far, and a trace of observable bus events.
-/

namespace SSD1306

/-- I/O protocols, from `ssd1306_protocol_t` in ssd1306.h (lines 32-37). -/
inductive ssd1306_protocol_t
  | SSD1306_PROTO_I2C
  | SSD1306_PROTO_SPI4
  | SSD1306_PROTO_SPI3
  deriving DecidableEq

/-- Device descriptor, from `ssd1306_t` in ssd1306.h (lines 42-54).
Machine bytes are embedded as `Nat`. -/
structure ssd1306_t where
  protocol : ssd1306_protocol_t
  addr : Nat
  cs_pin : Nat
  dc_pin : Nat
  width : Nat
  height : Nat

/-- Addressing mode, from `ssd1306_mem_addr_mode_t` in ssd1306.h (lines 59-64). -/
inductive ssd1306_mem_addr_mode_t
  | SSD1306_ADDR_MODE_HORIZONTAL
  | SSD1306_ADDR_MODE_VERTICAL
  | SSD1306_ADDR_MODE_PAGE
  deriving DecidableEq

/-- Numeric value of the addressing-mode enum (C enum values 0, 1, 2). -/
def modeCode : ssd1306_mem_addr_mode_t → Nat
  | .SSD1306_ADDR_MODE_HORIZONTAL => 0
  | .SSD1306_ADDR_MODE_VERTICAL => 1
  | .SSD1306_ADDR_MODE_PAGE => 2

/-- Modelled from the spec (section 6): one observable action of the
underlying bus layer - an I2C write of a byte string to a bus address,
a GPIO level change, or an SPI byte transfer. -/
inductive BusEvent
  | i2cWrite (addr : Nat) (bytes : List Nat)
  | gpio (pin : Nat) (level : Bool)
  | spiXfer (bytes : List Nat)
  deriving DecidableEq

/-- Bus state: `env i` is the result code the bus layer returns for the
i-th fallible bus transaction (0 = success), `idx` counts transactions
attempted so far, `trace` records every observable event. -/
structure Bus where
  env : Nat → Int
  idx : Nat
  trace : List BusEvent

/-- Fresh bus state with a given result environment. -/
def Bus.init (env : Nat → Int) : Bus := ⟨env, 0, []⟩

/-- Perform one fallible bus transaction: record the event, consume the
next result code from the environment. -/
def busOp (e : BusEvent) (b : Bus) : Int × Bus :=
  (b.env b.idx, ⟨b.env, b.idx + 1, b.trace ++ [e]⟩)

/-- Record infallible events (GPIO level changes) on the trace. -/
def emits (es : List BusEvent) (b : Bus) : Bus :=
  ⟨b.env, b.idx, b.trace ++ es⟩

/-- Sequencing with the driver's early-return error convention: run `g`
only if `f` returned 0, otherwise propagate `f`'s error verbatim. -/
def seq (f g : Bus → Int × Bus) : Bus → Int × Bus := fun b =>
  let p := f b
  if p.1 = 0 then g p.2 else p

/-- Modelled from the spec (section 7): the "unsupported operation"
error returned when the 3-wire SPI protocol is selected; the header only
documents that errors are non-zero. -/
def ENOTSUP : Int := -95

/-- Modelled from the spec (section 4.1 and glossary): I2C control byte
for a single command byte; top two bits are the "command" pattern 0b10. -/
def i2cCtrlCommand : Nat := 0x80

/-- Modelled from the spec (section 4.1 and glossary): I2C control byte
for a data payload; top two bits are the "data" pattern 0b01. -/
def i2cCtrlData : Nat := 0x40

/-- Modelled from the spec (section 4.1): the Transport Adapter.  It
delivers one command byte, optionally followed by a data payload.
I2C framing: each transmitted unit is prefixed by a control byte.
4-wire SPI framing: D/C is driven low for the command byte and high
for the data bytes; chip select (active low) is asserted across the
whole transfer and released on every exit path, including errors.
3-wire SPI: intentionally unimplemented, fails with `ENOTSUP` and
touches the bus in no way. -/
def transportSend (dev : ssd1306_t) (cmd : Nat) (data : List Nat) (b : Bus) : Int × Bus :=
  match dev.protocol with
  | .SSD1306_PROTO_I2C =>
      let p := busOp (.i2cWrite dev.addr [i2cCtrlCommand, cmd % 256]) b
      if data = [] ∨ p.1 ≠ 0 then p
      else busOp (.i2cWrite dev.addr (i2cCtrlData :: data)) p.2
  | .SSD1306_PROTO_SPI4 =>
      let p := busOp (.spiXfer [cmd % 256])
        (emits [.gpio dev.cs_pin false, .gpio dev.dc_pin false] b)
      if data = [] ∨ p.1 ≠ 0 then (p.1, emits [.gpio dev.cs_pin true] p.2)
      else
        let q := busOp (.spiXfer data) (emits [.gpio dev.dc_pin true] p.2)
        (q.1, emits [.gpio dev.cs_pin true] q.2)
  | .SSD1306_PROTO_SPI3 => (ENOTSUP, b)

/-- Modelled from the spec (sections 4.1, 4.3, 9): the Transport
Adapter's pure data send, used by the bulk upload to stream a
framebuffer.  I2C: one unit prefixed with the data control byte.
4-wire SPI: D/C high for the whole transfer, chip select asserted
around it and released on every exit path. -/
def sendData (dev : ssd1306_t) (d : List Nat) (b : Bus) : Int × Bus :=
  match dev.protocol with
  | .SSD1306_PROTO_I2C => busOp (.i2cWrite dev.addr (i2cCtrlData :: d)) b
  | .SSD1306_PROTO_SPI4 =>
      let p := busOp (.spiXfer d)
        (emits [.gpio dev.cs_pin false, .gpio dev.dc_pin true] b)
      (p.1, emits [.gpio dev.cs_pin true] p.2)
  | .SSD1306_PROTO_SPI3 => (ENOTSUP, b)

/-- Issue a single command (ssd1306.h line 72); modelled from the spec
as a command-only Transport Adapter send. -/
def ssd1306_command (dev : ssd1306_t) (cmd : Nat) : Bus → Int × Bus :=
  transportSend dev cmd []

/-- Issue a sequence of command bytes, stopping at the first error
(spec sections 4.4 and 7). -/
def cmds (dev : ssd1306_t) : List Nat → Bus → Int × Bus
  | [] => fun b => (0, b)
  | c :: cs => seq (ssd1306_command dev c) (cmds dev cs)

/-- Modelled from the spec (section 4.3): command sequence issued by the
bulk upload before streaming - set memory addressing mode (horizontal),
then column range 0..width-1 and page range 0..height/8-1, so the full
active area is addressed. -/
def addressingCmds (dev : ssd1306_t) : List Nat :=
  [0x20, modeCode .SSD1306_ADDR_MODE_HORIZONTAL,
   0x21, 0, dev.width - 1,
   0x22, 0, dev.height / 8 - 1]

/-- Modelled from the spec (section 4.3): the data payload of a bulk
upload - the caller's buffer, or `width*height/8` synthesized zero bytes
when the buffer reference is absent. -/
def framePayload (dev : ssd1306_t) (buf : Option (List Nat)) : List Nat :=
  match buf with
  | some fb => fb
  | none => List.replicate (dev.width * dev.height / 8) 0

/-- Load a local framebuffer into the SSD1306 RAM (ssd1306.h line 96);
modelled from the spec (section 4.3): addressing command sequence first,
then the payload streamed as one data transfer. -/
def ssd1306_load_frame_buffer (dev : ssd1306_t) (buf : Option (List Nat)) : Bus → Int × Bus :=
  seq (cmds dev (addressingCmds dev)) (sendData dev (framePayload dev buf))

/-- Modelled from the spec (section 3): extract one pixel from an XBM
source bitmap - bits packed 8 per byte along each row, LSB first, rows
padded to a byte boundary individually. -/
def xbmBit (xbm : List Nat) (width r c : Nat) : Nat :=
  (xbm.getD (r * ((width + 7) / 8) + c / 8) 0 >>> (c % 8)) % 2

/-- Modelled from the spec (section 4.2): one destination byte of the
converted framebuffer - page `p`, column `c`; bit k of the byte samples
source row `8*p + k` (bit 0 = topmost row of the page). -/
def xbmByte (xbm : List Nat) (width p c : Nat) : Nat :=
  (List.range 8).foldr (fun k acc => acc * 2 + xbmBit xbm width (8 * p + k) c) 0

/-- Modelled from the spec (section 4.2): the Bitmap Converter of
`ssd1306_load_xbm` - the destination is `height/8` pages of `width`
bytes each, in page-major order. -/
def ssd1306_load_xbm_convert (dev : ssd1306_t) (xbm : List Nat) : List Nat :=
  (List.range (dev.height / 8 * dev.width)).map fun i =>
    xbmByte xbm dev.width (i / dev.width) (i % dev.width)

/-- Load an XBM picture into the SSD1306 RAM (ssd1306.h line 88);
modelled from the spec (section 4.2, step 4): convert, then hand the
converted buffer to the same bulk-upload path used by direct
framebuffer loads. -/
def ssd1306_load_xbm (dev : ssd1306_t) (xbm : List Nat) : Bus → Int × Bus :=
  ssd1306_load_frame_buffer dev (some (ssd1306_load_xbm_convert dev xbm))

/-- Clear the SSD1306 RAM; translated from the source (ssd1306.h lines
103-106): `return ssd1306_load_frame_buffer(dev, NULL);`. -/
def ssd1306_clear_screen (dev : ssd1306_t) : Bus → Int × Bus :=
  ssd1306_load_frame_buffer dev none

/-- Modelled from the spec: `ssd1306_init` is declared in ssd1306.h
(line 79) as a "default init" but neither the implementation nor the
spec fixes its command sequence; a representative datasheet power-on
sequence of plain commands is used.  No claim depends on its contents. -/
def initSeq (dev : ssd1306_t) : List Nat :=
  [0xAE, 0xA8, dev.height - 1, 0xD3, 0, 0x40, 0x8D, 0x14,
   0x20, 0, 0xA1, 0xC8, 0xDA, 0x12, 0x81, 0x7F, 0xA4, 0xA6, 0xAF]

/-- Default init for SSD1306 (ssd1306.h line 79). -/
def ssd1306_init (dev : ssd1306_t) : Bus → Int × Bus :=
  cmds dev (initSeq dev)

/-- Turn display on or off (ssd1306.h line 114). -/
def ssd1306_display_on (dev : ssd1306_t) (flag : Bool) : Bus → Int × Bus :=
  cmds dev [if flag then 0xAF else 0xAE]

/-- Set the Display Start Line register (ssd1306.h line 125). -/
def ssd1306_set_display_start_line (dev : ssd1306_t) (start : Nat) : Bus → Int × Bus :=
  cmds dev [0x40 + start % 64]

/-- Set display offset (ssd1306.h line 133). -/
def ssd1306_set_display_offset (dev : ssd1306_t) (offset : Nat) : Bus → Int × Bus :=
  cmds dev [0xD3, offset % 64]

/-- Enable or disable the charge pump (ssd1306.h line 141). -/
def ssd1306_set_charge_pump_enabled (dev : ssd1306_t) (enabled : Bool) : Bus → Int × Bus :=
  cmds dev [0x8D, if enabled then 0x14 else 0x10]

/-- Set memory addressing mode (ssd1306.h line 149). -/
def ssd1306_set_mem_addr_mode (dev : ssd1306_t) (mode : ssd1306_mem_addr_mode_t) : Bus → Int × Bus :=
  cmds dev [0x20, modeCode mode]

/-- Change the column-address to segment-driver mapping (ssd1306.h line 158). -/
def ssd1306_set_segment_remapping_enabled (dev : ssd1306_t) (flag : Bool) : Bus → Int × Bus :=
  cmds dev [if flag then 0xA1 else 0xA0]

/-- Set the scan direction of the COM output (ssd1306.h line 170). -/
def ssd1306_set_scan_direction_fwd (dev : ssd1306_t) (fwd : Bool) : Bus → Int × Bus :=
  cmds dev [if fwd then 0xC0 else 0xC8]

/-- Set the COM signals pin configuration (ssd1306.h line 179). -/
def ssd1306_set_com_pin_hw_config (dev : ssd1306_t) (config : Nat) : Bus → Int × Bus :=
  cmds dev [0xDA, config % 256]

/-- Set the display contrast (ssd1306.h line 187). -/
def ssd1306_set_contrast (dev : ssd1306_t) (contrast : Nat) : Bus → Int × Bus :=
  cmds dev [0x81, contrast % 256]

/-- Set the display to be either normal or inverse (ssd1306.h line 197). -/
def ssd1306_set_inversion (dev : ssd1306_t) (flag : Bool) : Bus → Int × Bus :=
  cmds dev [if flag then 0xA7 else 0xA6]

/-- Set the divide ratio of display clock and oscillator frequency
(ssd1306.h line 207). -/
def ssd1306_set_osc_freq (dev : ssd1306_t) (osc_freq : Nat) : Bus → Int × Bus :=
  cmds dev [0xD5, osc_freq % 256]

/-- Switch multiplex mode to a given multiplex value, 16..63
(ssd1306.h line 217). -/
def ssd1306_set_mux_ratio (dev : ssd1306_t) (mux : Nat) : Bus → Int × Bus :=
  cmds dev [0xA8, mux % 64]

/-- Specify column start and end address (ssd1306.h line 234). -/
def ssd1306_set_column_addr (dev : ssd1306_t) (start stop : Nat) : Bus → Int × Bus :=
  cmds dev [0x21, start % 256, stop % 256]

/-- Specify page start and end address (ssd1306.h line 250). -/
def ssd1306_set_page_addr (dev : ssd1306_t) (start stop : Nat) : Bus → Int × Bus :=
  cmds dev [0x22, start % 256, stop % 256]

/-- Set the duration of the pre-charge period (ssd1306.h line 259). -/
def ssd1306_set_precharge_period (dev : ssd1306_t) (prchrg : Nat) : Bus → Int × Bus :=
  cmds dev [0xD9, prchrg % 256]

/-- Adjust the VCOMH regulator output (ssd1306.h line 267). -/
def ssd1306_set_deseltct_lvl (dev : ssd1306_t) (lvl : Nat) : Bus → Int × Bus :=
  cmds dev [0xDB, lvl % 256]

/-- Force the entire display to be on regardless of RAM contents
(ssd1306.h line 276). -/
def ssd1306_set_whole_display_lighting (dev : ssd1306_t) (light : Bool) : Bus → Int × Bus :=
  cmds dev [if light then 0xA5 else 0xA4]

/-- One Transport Adapter step seen abstractly: infallible events
emitted before the fallible bus transaction, the transaction's event,
and infallible events emitted after it on every path (the SPI chip
select release). -/
structure Step where
  pre : List BusEvent
  ev : BusEvent
  post : List BusEvent

/-- Events contributed by one step. -/
def stepEvents (st : Step) : List BusEvent :=
  st.pre ++ st.ev :: st.post

/-- Events contributed by a list of steps. -/
def stepsEvents : List Step → List BusEvent
  | [] => []
  | st :: rest => stepEvents st ++ stepsEvents rest

/-- Run one abstract step. -/
def gstep (st : Step) (b : Bus) : Int × Bus :=
  let p := busOp st.ev (emits st.pre b)
  (p.1, emits st.post p.2)

/-- Run a list of abstract steps, stopping at the first error. -/
def gchain : List Step → Bus → Int × Bus
  | [] => fun b => (0, b)
  | st :: rest => seq (gstep st) (gchain rest)

/-- Abstract step of a single command send, per protocol. -/
def cmdStep (dev : ssd1306_t) (c : Nat) : Step :=
  match dev.protocol with
  | .SSD1306_PROTO_I2C =>
      ⟨[], .i2cWrite dev.addr [i2cCtrlCommand, c % 256], []⟩
  | .SSD1306_PROTO_SPI4 =>
      ⟨[.gpio dev.cs_pin false, .gpio dev.dc_pin false], .spiXfer [c % 256],
       [.gpio dev.cs_pin true]⟩
  | .SSD1306_PROTO_SPI3 => ⟨[], .spiXfer [], []⟩

/-- Abstract step of a pure data send, per protocol. -/
def dataStep (dev : ssd1306_t) (d : List Nat) : Step :=
  match dev.protocol with
  | .SSD1306_PROTO_I2C =>
      ⟨[], .i2cWrite dev.addr (i2cCtrlData :: d), []⟩
  | .SSD1306_PROTO_SPI4 =>
      ⟨[.gpio dev.cs_pin false, .gpio dev.dc_pin true], .spiXfer d,
       [.gpio dev.cs_pin true]⟩
  | .SSD1306_PROTO_SPI3 => ⟨[], .spiXfer [], []⟩

/-- Expected trace of one command send, per protocol. -/
def cmdEvents (dev : ssd1306_t) (c : Nat) : List BusEvent :=
  match dev.protocol with
  | .SSD1306_PROTO_I2C => [.i2cWrite dev.addr [i2cCtrlCommand, c % 256]]
  | .SSD1306_PROTO_SPI4 =>
      [.gpio dev.cs_pin false, .gpio dev.dc_pin false, .spiXfer [c % 256],
       .gpio dev.cs_pin true]
  | .SSD1306_PROTO_SPI3 => []

/-- Expected trace of a sequence of command sends. -/
def seqEvents (dev : ssd1306_t) : List Nat → List BusEvent
  | [] => []
  | c :: cs => cmdEvents dev c ++ seqEvents dev cs

/-- Expected trace of one pure data send, per protocol. -/
def dataEvents (dev : ssd1306_t) (d : List Nat) : List BusEvent :=
  match dev.protocol with
  | .SSD1306_PROTO_I2C => [.i2cWrite dev.addr (i2cCtrlData :: d)]
  | .SSD1306_PROTO_SPI4 =>
      [.gpio dev.cs_pin false, .gpio dev.dc_pin true, .spiXfer d,
       .gpio dev.cs_pin true]
  | .SSD1306_PROTO_SPI3 => []

/-- The public interface of the driver (ssd1306.h), as one inductive so
that properties can be stated for every operation at once. -/
inductive Op
  | command (cmd : Nat)
  | op_init
  | load_xbm (xbm : List Nat)
  | load_frame_buffer (buf : Option (List Nat))
  | clear_screen
  | display_on (flag : Bool)
  | set_display_start_line (start : Nat)
  | set_display_offset (offset : Nat)
  | set_charge_pump_enabled (enabled : Bool)
  | set_mem_addr_mode (mode : ssd1306_mem_addr_mode_t)
  | set_segment_remapping_enabled (flag : Bool)
  | set_scan_direction_fwd (fwd : Bool)
  | set_com_pin_hw_config (config : Nat)
  | set_contrast (contrast : Nat)
  | set_inversion (flag : Bool)
  | set_osc_freq (osc_freq : Nat)
  | set_mux (mux : Nat)
  | set_column_addr (start stop : Nat)
  | set_page_addr (start stop : Nat)
  | set_precharge_period (prchrg : Nat)
  | set_deseltct_lvl (lvl : Nat)
  | set_whole_display_lighting (light : Bool)

/-- Dispatch an operation of the public interface. -/
def runOp (op : Op) (dev : ssd1306_t) : Bus → Int × Bus :=
  match op with
  | .command c => ssd1306_command dev c
  | .op_init => ssd1306_init dev
  | .load_xbm xbm => ssd1306_load_xbm dev xbm
  | .load_frame_buffer buf => ssd1306_load_frame_buffer dev buf
  | .clear_screen => ssd1306_clear_screen dev
  | .display_on flag => ssd1306_display_on dev flag
  | .set_display_start_line s => ssd1306_set_display_start_line dev s
  | .set_display_offset o => ssd1306_set_display_offset dev o
  | .set_charge_pump_enabled e => ssd1306_set_charge_pump_enabled dev e
  | .set_mem_addr_mode m => ssd1306_set_mem_addr_mode dev m
  | .set_segment_remapping_enabled flag => ssd1306_set_segment_remapping_enabled dev flag
  | .set_scan_direction_fwd fwd => ssd1306_set_scan_direction_fwd dev fwd
  | .set_com_pin_hw_config cfg => ssd1306_set_com_pin_hw_config dev cfg
  | .set_contrast x => ssd1306_set_contrast dev x
  | .set_inversion flag => ssd1306_set_inversion dev flag
  | .set_osc_freq f => ssd1306_set_osc_freq dev f
  | .set_mux m => ssd1306_set_mux_ratio dev m
  | .set_column_addr s e => ssd1306_set_column_addr dev s e
  | .set_page_addr s e => ssd1306_set_page_addr dev s e
  | .set_precharge_period p => ssd1306_set_precharge_period dev p
  | .set_deseltct_lvl l => ssd1306_set_deseltct_lvl dev l
  | .set_whole_display_lighting light => ssd1306_set_whole_display_lighting dev light

/-- Abstract step list of each operation (mirrors `runOp`). -/
def opSteps (dev : ssd1306_t) : Op → List Step
  | .command c => [cmdStep dev c]
  | .op_init => List.map (cmdStep dev) (initSeq dev)
  | .load_xbm xbm =>
      List.map (cmdStep dev) (addressingCmds dev)
        ++ [dataStep dev (ssd1306_load_xbm_convert dev xbm)]
  | .load_frame_buffer buf =>
      List.map (cmdStep dev) (addressingCmds dev)
        ++ [dataStep dev (framePayload dev buf)]
  | .clear_screen =>
      List.map (cmdStep dev) (addressingCmds dev)
        ++ [dataStep dev (framePayload dev none)]
  | .display_on flag => List.map (cmdStep dev) [if flag then 0xAF else 0xAE]
  | .set_display_start_line s => List.map (cmdStep dev) [0x40 + s % 64]
  | .set_display_offset o => List.map (cmdStep dev) [0xD3, o % 64]
  | .set_charge_pump_enabled e => List.map (cmdStep dev) [0x8D, if e then 0x14 else 0x10]
  | .set_mem_addr_mode m => List.map (cmdStep dev) [0x20, modeCode m]
  | .set_segment_remapping_enabled flag => List.map (cmdStep dev) [if flag then 0xA1 else 0xA0]
  | .set_scan_direction_fwd fwd => List.map (cmdStep dev) [if fwd then 0xC0 else 0xC8]
  | .set_com_pin_hw_config cfg => List.map (cmdStep dev) [0xDA, cfg % 256]
  | .set_contrast x => List.map (cmdStep dev) [0x81, x % 256]
  | .set_inversion flag => List.map (cmdStep dev) [if flag then 0xA7 else 0xA6]
  | .set_osc_freq f => List.map (cmdStep dev) [0xD5, f % 256]
  | .set_mux m => List.map (cmdStep dev) [0xA8, m % 64]
  | .set_column_addr s e => List.map (cmdStep dev) [0x21, s % 256, e % 256]
  | .set_page_addr s e => List.map (cmdStep dev) [0x22, s % 256, e % 256]
  | .set_precharge_period p => List.map (cmdStep dev) [0xD9, p % 256]
  | .set_deseltct_lvl l => List.map (cmdStep dev) [0xDB, l % 256]
  | .set_whole_display_lighting light => List.map (cmdStep dev) [if light then 0xA5 else 0xA4]

/-- Synthetic XBM source with exactly one lit pixel at row `r`,
column `c` (spec section 8): row-major, LSB-first, rows padded to a
byte boundary individually. -/
def singlePixelXbm (width height r c : Nat) : List Nat :=
  (List.range (height * ((width + 7) / 8))).map fun j =>
    if j = r * ((width + 7) / 8) + c / 8 then 1 <<< (c % 8) else 0

/-- Source-buffer byte indices the Bitmap Converter samples: for every
destination byte (page `i / width`, column `i % width`) and every bit
`k < 8`, the index read by `xbmBit` for source row `8*(i/width) + k`
(mirrors `ssd1306_load_xbm_convert`; the converter performs no reads of
the destination buffer, it is written functionally). -/
def convertReads (dev : ssd1306_t) : List Nat :=
  ((List.range (dev.height / 8 * dev.width)).map fun i =>
    (List.range 8).map fun k =>
      (8 * (i / dev.width) + k) * ((dev.width + 7) / 8) + (i % dev.width) / 8).flatten

/-- Concrete I2C device used by witnesses (96x16 panel). -/
def devI2C : ssd1306_t := ⟨.SSD1306_PROTO_I2C, 0x3C, 0, 0, 96, 16⟩

/-- Concrete 4-wire SPI device used by witnesses (128x64 panel). -/
def devSPI4 : ssd1306_t := ⟨.SSD1306_PROTO_SPI4, 0, 5, 4, 128, 64⟩

/-- Concrete 3-wire SPI device used by witnesses. -/
def devSPI3 : ssd1306_t := ⟨.SSD1306_PROTO_SPI3, 0, 5, 4, 128, 64⟩

/-- Environment in which every bus transaction succeeds. -/
def envZero : Nat → Int := fun _ => 0

/-- Environment in which the fourth bus transaction (index 3) fails
with code 7 and all others succeed. -/
def envFail3 : Nat → Int := fun i => if i = 3 then 7 else 0

theorem seq_assoc (f g k : Bus → Int × Bus) : seq (seq f g) k = seq f (seq g k) := by
  funext b
  by_cases h : (f b).1 = 0 <;> simp [seq, h]

theorem gstep_apply (st : Step) (b : Bus) :
    gstep st b = (b.env b.idx, ⟨b.env, b.idx + 1, b.trace ++ stepEvents st⟩) := by
  simp [gstep, busOp, emits, stepEvents]

theorem gchain_singleton (st : Step) : gchain [st] = gstep st := by
  funext b
  simp only [gchain, seq]
  by_cases h : (gstep st b).1 = 0
  · simp only [h, if_pos]
    rw [← h]
  · simp [h]

theorem gchain_ok : ∀ (steps : List Step) (b : Bus),
    (∀ j, j < steps.length → b.env (b.idx + j) = 0) →
    gchain steps b = (0, ⟨b.env, b.idx + steps.length, b.trace ++ stepsEvents steps⟩)
  | [], b, _ => by simp [gchain, stepsEvents]
  | st :: rest, b, h => by
      have h0 : b.env b.idx = 0 := by simpa using h 0 (by simp)
      have ih := gchain_ok rest ⟨b.env, b.idx + 1, b.trace ++ stepEvents st⟩
        (fun j hj => by
          have e : b.idx + 1 + j = b.idx + (j + 1) := by omega
          show b.env (b.idx + 1 + j) = 0
          rw [e]
          exact h (j + 1) (by simpa using Nat.succ_lt_succ hj))
      simp only [gchain, seq]
      rw [gstep_apply]
      simp only [h0, if_pos]
      rw [ih]
      simp [stepsEvents, List.append_assoc]
      omega

theorem gchain_fail : ∀ (steps : List Step) (b : Bus) (k : Nat),
    k < steps.length →
    (∀ j, j < k → b.env (b.idx + j) = 0) →
    b.env (b.idx + k) ≠ 0 →
    gchain steps b =
      (b.env (b.idx + k),
        ⟨b.env, b.idx + k + 1, b.trace ++ stepsEvents (List.take (k + 1) steps)⟩)
  | [], _, k, hk, _, _ => absurd hk (by simp)
  | st :: rest, b, 0, _, _, hf => by
      have hf0 : b.env b.idx ≠ 0 := by simpa using hf
      simp only [gchain, seq]
      rw [gstep_apply]
      simp [hf0, stepsEvents, stepEvents]
  | st :: rest, b, k + 1, hk, h0, hf => by
      have hz : b.env b.idx = 0 := by simpa using h0 0 (Nat.succ_pos k)
      have ih := gchain_fail rest ⟨b.env, b.idx + 1, b.trace ++ stepEvents st⟩ k
        (by simpa using Nat.lt_of_succ_lt_succ hk)
        (fun j hj => by
          have e : b.idx + 1 + j = b.idx + (j + 1) := by omega
          show b.env (b.idx + 1 + j) = 0
          rw [e]
          exact h0 (j + 1) (Nat.succ_lt_succ hj))
        (by
          have e : b.idx + 1 + k = b.idx + (k + 1) := by omega
          show b.env (b.idx + 1 + k) ≠ 0
          rw [e]
          exact hf)
      simp only [gchain, seq]
      rw [gstep_apply]
      simp only [hz, if_pos]
      rw [ih]
      have e : b.idx + 1 + k = b.idx + (k + 1) := by omega
      rw [e]
      simp [stepsEvents, List.append_assoc]

theorem ssd1306_command_eq (dev : ssd1306_t) (c : Nat)
    (hp : dev.protocol ≠ .SSD1306_PROTO_SPI3) :
    ssd1306_command dev c = gstep (cmdStep dev c) := by
  funext b
  cases hprot : dev.protocol with
  | SSD1306_PROTO_I2C =>
      simp [ssd1306_command, transportSend, cmdStep, hprot, gstep, busOp, emits]
  | SSD1306_PROTO_SPI4 =>
      simp [ssd1306_command, transportSend, cmdStep, hprot, gstep, busOp, emits]
  | SSD1306_PROTO_SPI3 => exact absurd hprot hp

theorem sendData_eq (dev : ssd1306_t) (d : List Nat)
    (hp : dev.protocol ≠ .SSD1306_PROTO_SPI3) :
    sendData dev d = gstep (dataStep dev d) := by
  funext b
  cases hprot : dev.protocol with
  | SSD1306_PROTO_I2C =>
      simp [sendData, dataStep, hprot, gstep, busOp, emits]
  | SSD1306_PROTO_SPI4 =>
      simp [sendData, dataStep, hprot, gstep, busOp, emits]
  | SSD1306_PROTO_SPI3 => exact absurd hprot hp

theorem cmds_eq (dev : ssd1306_t) (hp : dev.protocol ≠ .SSD1306_PROTO_SPI3) :
    ∀ l : List Nat, cmds dev l = gchain (List.map (cmdStep dev) l)
  | [] => rfl
  | c :: cs => by
      simp only [cmds, List.map, gchain]
      rw [ssd1306_command_eq dev c hp, cmds_eq dev hp cs]

theorem gchain_append : ∀ l1 l2 : List Step,
    gchain (l1 ++ l2) = seq (gchain l1) (gchain l2)
  | [], l2 => by
      funext b
      simp [gchain, seq]
  | st :: rest, l2 => by
      show seq (gstep st) (gchain (rest ++ l2)) = seq (seq (gstep st) (gchain rest)) (gchain l2)
      rw [gchain_append rest l2, ← seq_assoc]

theorem ssd1306_load_frame_buffer_eq (dev : ssd1306_t) (buf : Option (List Nat))
    (hp : dev.protocol ≠ .SSD1306_PROTO_SPI3) :
    ssd1306_load_frame_buffer dev buf =
      gchain (List.map (cmdStep dev) (addressingCmds dev)
        ++ [dataStep dev (framePayload dev buf)]) := by
  unfold ssd1306_load_frame_buffer
  rw [gchain_append, gchain_singleton, cmds_eq dev hp, sendData_eq dev _ hp]

theorem runOp_eq_gchain (op : Op) (dev : ssd1306_t)
    (hp : dev.protocol ≠ .SSD1306_PROTO_SPI3) :
    runOp op dev = gchain (opSteps dev op) := by
  cases op <;>
    simp only [runOp, opSteps, ssd1306_init, ssd1306_display_on,
      ssd1306_set_display_start_line, ssd1306_set_display_offset,
      ssd1306_set_charge_pump_enabled, ssd1306_set_mem_addr_mode,
      ssd1306_set_segment_remapping_enabled, ssd1306_set_scan_direction_fwd,
      ssd1306_set_com_pin_hw_config, ssd1306_set_contrast, ssd1306_set_inversion,
      ssd1306_set_osc_freq, ssd1306_set_mux_ratio, ssd1306_set_column_addr,
      ssd1306_set_page_addr, ssd1306_set_precharge_period, ssd1306_set_deseltct_lvl,
      ssd1306_set_whole_display_lighting, ssd1306_load_xbm, ssd1306_clear_screen] <;>
    first
      | exact cmds_eq dev hp _
      | exact ssd1306_load_frame_buffer_eq dev _ hp
      | rw [ssd1306_command_eq dev _ hp, gchain_singleton]

theorem stepEvents_cmdStep (dev : ssd1306_t) (c : Nat)
    (hp : dev.protocol ≠ .SSD1306_PROTO_SPI3) :
    stepEvents (cmdStep dev c) = cmdEvents dev c := by
  cases hprot : dev.protocol with
  | SSD1306_PROTO_I2C => simp [stepEvents, cmdStep, cmdEvents, hprot]
  | SSD1306_PROTO_SPI4 => simp [stepEvents, cmdStep, cmdEvents, hprot]
  | SSD1306_PROTO_SPI3 => exact absurd hprot hp

theorem stepEvents_dataStep (dev : ssd1306_t) (d : List Nat)
    (hp : dev.protocol ≠ .SSD1306_PROTO_SPI3) :
    stepEvents (dataStep dev d) = dataEvents dev d := by
  cases hprot : dev.protocol with
  | SSD1306_PROTO_I2C => simp [stepEvents, dataStep, dataEvents, hprot]
  | SSD1306_PROTO_SPI4 => simp [stepEvents, dataStep, dataEvents, hprot]
  | SSD1306_PROTO_SPI3 => exact absurd hprot hp

theorem stepsEvents_cmdSteps (dev : ssd1306_t) (hp : dev.protocol ≠ .SSD1306_PROTO_SPI3) :
    ∀ l : List Nat, stepsEvents (List.map (cmdStep dev) l) = seqEvents dev l
  | [] => rfl
  | c :: cs => by
      simp only [List.map, stepsEvents, seqEvents]
      rw [stepEvents_cmdStep dev c hp, stepsEvents_cmdSteps dev hp cs]

theorem stepsEvents_append : ∀ l1 l2 : List Step,
    stepsEvents (l1 ++ l2) = stepsEvents l1 ++ stepsEvents l2
  | [], _ => rfl
  | st :: rest, l2 => by
      show stepEvents st ++ stepsEvents (rest ++ l2)
        = (stepEvents st ++ stepsEvents rest) ++ stepsEvents l2
      rw [stepsEvents_append rest l2, List.append_assoc]

theorem ssd1306_load_frame_buffer_ok (dev : ssd1306_t) (buf : Option (List Nat))
    (env : Nat → Int) (hp : dev.protocol ≠ .SSD1306_PROTO_SPI3)
    (hall : ∀ i, env i = 0) :
    ssd1306_load_frame_buffer dev buf (Bus.init env) =
      (0, ⟨env, 9, seqEvents dev (addressingCmds dev)
            ++ dataEvents dev (framePayload dev buf)⟩) := by
  rw [ssd1306_load_frame_buffer_eq dev buf hp]
  have h := gchain_ok
    (List.map (cmdStep dev) (addressingCmds dev) ++ [dataStep dev (framePayload dev buf)])
    (Bus.init env) (fun j _ => hall _)
  rw [h]
  simp [Bus.init, stepsEvents_append, stepsEvents, seqEvents,
    stepEvents_cmdStep dev _ hp, stepEvents_dataStep dev _ hp, addressingCmds]

theorem cmds_spi3 (dev : ssd1306_t) (hp : dev.protocol = .SSD1306_PROTO_SPI3)
    (c : Nat) (cs : List Nat) (b : Bus) :
    cmds dev (c :: cs) b = (ENOTSUP, b) := by
  simp [cmds, seq, ssd1306_command, transportSend, hp, ENOTSUP]

theorem load_frame_buffer_spi3 (dev : ssd1306_t) (hp : dev.protocol = .SSD1306_PROTO_SPI3)
    (buf : Option (List Nat)) (b : Bus) :
    ssd1306_load_frame_buffer dev buf b = (ENOTSUP, b) := by
  simp [ssd1306_load_frame_buffer, addressingCmds, seq, cmds_spi3 dev hp, ENOTSUP]

/-- Claim C4: for every operation of the public interface, a device
descriptor selecting the 3-wire SPI protocol yields the "unsupported
operation" error `ENOTSUP` deterministically, with the bus state left
untouched - no transaction is attempted and no event is emitted. -/
theorem spi3_always_unsupported (op : Op) (dev : ssd1306_t) (b : Bus)
    (hp : dev.protocol = .SSD1306_PROTO_SPI3) :
    runOp op dev b = (ENOTSUP, b) ∧ ENOTSUP ≠ 0 := by
  refine ⟨?_, by decide⟩
  cases op <;>
    simp [runOp, ssd1306_init, initSeq, ssd1306_display_on,
      ssd1306_set_display_start_line, ssd1306_set_display_offset,
      ssd1306_set_charge_pump_enabled, ssd1306_set_mem_addr_mode,
      ssd1306_set_segment_remapping_enabled, ssd1306_set_scan_direction_fwd,
      ssd1306_set_com_pin_hw_config, ssd1306_set_contrast, ssd1306_set_inversion,
      ssd1306_set_osc_freq, ssd1306_set_mux_ratio, ssd1306_set_column_addr,
      ssd1306_set_page_addr, ssd1306_set_precharge_period, ssd1306_set_deseltct_lvl,
      ssd1306_set_whole_display_lighting, ssd1306_load_xbm, ssd1306_clear_screen,
      ssd1306_command, transportSend, hp, cmds_spi3 dev hp, load_frame_buffer_spi3 dev hp]

/-- Witness for C4 at a concrete 3-wire SPI descriptor and operation. -/
theorem spi3_always_unsupported_witness :
    runOp .clear_screen devSPI3 (Bus.init envZero) = (ENOTSUP, Bus.init envZero) ∧
      ENOTSUP ≠ 0 :=
  spi3_always_unsupported .clear_screen devSPI3 (Bus.init envZero) rfl

/-- Claim C5: every I2C transmitted unit is prefixed with a one-byte
control byte; a command-only send carries the prefix `i2cCtrlCommand`
whose top two bits (value divided by 64) are the command pattern 0b10,
and a data send carries the prefix `i2cCtrlData` whose top two bits are
the data pattern 0b01. -/
theorem i2c_control_byte_framing (dev : ssd1306_t) (c : Nat) (d : List Nat)
    (env : Nat → Int) (hp : dev.protocol = .SSD1306_PROTO_I2C) :
    (ssd1306_command dev c (Bus.init env)).2.trace
        = [.i2cWrite dev.addr [i2cCtrlCommand, c % 256]] ∧
    (sendData dev d (Bus.init env)).2.trace
        = [.i2cWrite dev.addr (i2cCtrlData :: d)] ∧
    i2cCtrlCommand / 64 = 2 ∧ i2cCtrlData / 64 = 1 := by
  refine ⟨?_, ?_, by decide, by decide⟩ <;>
    simp [ssd1306_command, transportSend, sendData, hp, busOp, Bus.init]

/-- Witness for C5 at a concrete I2C descriptor. -/
theorem i2c_control_byte_framing_witness :
    (ssd1306_command devI2C 0xAE (Bus.init envZero)).2.trace
        = [.i2cWrite devI2C.addr [i2cCtrlCommand, 0xAE % 256]] ∧
    (sendData devI2C [1, 2] (Bus.init envZero)).2.trace
        = [.i2cWrite devI2C.addr (i2cCtrlData :: [1, 2])] ∧
    i2cCtrlCommand / 64 = 2 ∧ i2cCtrlData / 64 = 1 :=
  i2c_control_byte_framing devI2C 0xAE [1, 2] envZero rfl

/-- Claim C6: for a 4-wire SPI transfer of a command byte followed by
data bytes, the trace is fully determined: chip select (active low) is
asserted first and released as the very last event on every exit path,
including a failing command transfer; D/C is low from before the
command byte until after it and set high exactly between the command
transfer and the data transfer, so it is high for the whole data
transfer. -/
theorem spi4_dc_cs_framing (dev : ssd1306_t) (cmd : Nat) (d : List Nat)
    (env : Nat → Int) (hp : dev.protocol = .SSD1306_PROTO_SPI4) (hd : d ≠ []) :
    (transportSend dev cmd d (Bus.init env)).2.trace =
      if env 0 = 0 then
        [.gpio dev.cs_pin false, .gpio dev.dc_pin false, .spiXfer [cmd % 256],
         .gpio dev.dc_pin true, .spiXfer d, .gpio dev.cs_pin true]
      else
        [.gpio dev.cs_pin false, .gpio dev.dc_pin false, .spiXfer [cmd % 256],
         .gpio dev.cs_pin true] := by
  by_cases h0 : env 0 = 0 <;>
    simp [transportSend, hp, emits, busOp, Bus.init, hd, h0]

/-- Witness for C6 at a concrete 4-wire SPI descriptor. -/
theorem spi4_dc_cs_framing_witness :
    (transportSend devSPI4 0x20 [7] (Bus.init envZero)).2.trace =
      if envZero 0 = 0 then
        [.gpio devSPI4.cs_pin false, .gpio devSPI4.dc_pin false, .spiXfer [0x20 % 256],
         .gpio devSPI4.dc_pin true, .spiXfer [7], .gpio devSPI4.cs_pin true]
      else
        [.gpio devSPI4.cs_pin false, .gpio devSPI4.dc_pin false, .spiXfer [0x20 % 256],
         .gpio devSPI4.cs_pin true] :=
  spi4_dc_cs_framing devSPI4 0x20 [7] envZero rfl (by decide)

/-- Claim C3: with an absent buffer and a fault-free bus, the bulk
upload succeeds and its whole bus traffic is the addressing command
sequence followed by exactly one data transfer whose payload is
`width*height/8` zero bytes - no special clearing chip command is
issued in its place. -/
theorem clear_streams_full_zero_payload (dev : ssd1306_t) (env : Nat → Int)
    (hp : dev.protocol ≠ .SSD1306_PROTO_SPI3)
    (hw : dev.width = 96 ∨ dev.width = 128)
    (hh : dev.height = 16 ∨ dev.height = 32 ∨ dev.height = 64)
    (hall : ∀ i, env i = 0) :
    (ssd1306_load_frame_buffer dev none (Bus.init env)).1 = 0 ∧
    (ssd1306_load_frame_buffer dev none (Bus.init env)).2.trace =
      seqEvents dev (addressingCmds dev)
        ++ dataEvents dev (List.replicate (dev.width * dev.height / 8) 0) := by
  rw [ssd1306_load_frame_buffer_ok dev none env hp hall]
  exact ⟨rfl, rfl⟩

/-- Witness for C3 at a concrete I2C descriptor and all-zero bus. -/
theorem clear_streams_full_zero_payload_witness :
    (ssd1306_load_frame_buffer devI2C none (Bus.init envZero)).1 = 0 ∧
    (ssd1306_load_frame_buffer devI2C none (Bus.init envZero)).2.trace =
      seqEvents devI2C (addressingCmds devI2C)
        ++ dataEvents devI2C (List.replicate (devI2C.width * devI2C.height / 8) 0) :=
  clear_streams_full_zero_payload devI2C envZero (by decide) (Or.inl rfl)
    (Or.inl rfl) (fun _ => rfl)

/-- Claim C7: every bulk upload - with a caller buffer, with an absent
buffer, and the upload performed by `ssd1306_load_xbm` for a converted
bitmap - first issues the addressing command sequence (memory
addressing mode, column range 0..width-1, page range 0..height/8-1,
the full active area) and only afterwards streams the payload as one
data transfer; the converted bitmap goes through exactly the same
path. -/
theorem upload_commands_precede_data (dev : ssd1306_t) (env : Nat → Int)
    (buf : Option (List Nat)) (xbm : List Nat)
    (hp : dev.protocol ≠ .SSD1306_PROTO_SPI3) (hall : ∀ i, env i = 0) :
    (ssd1306_load_frame_buffer dev buf (Bus.init env)).2.trace =
      seqEvents dev (addressingCmds dev) ++ dataEvents dev (framePayload dev buf) ∧
    (ssd1306_load_xbm dev xbm (Bus.init env)).2.trace =
      seqEvents dev (addressingCmds dev)
        ++ dataEvents dev (ssd1306_load_xbm_convert dev xbm) := by
  constructor
  · rw [ssd1306_load_frame_buffer_ok dev buf env hp hall]
  · show (ssd1306_load_frame_buffer dev (some (ssd1306_load_xbm_convert dev xbm))
      (Bus.init env)).2.trace = _
    rw [ssd1306_load_frame_buffer_ok dev _ env hp hall]
    rfl

/-- Witness for C7 at a concrete 4-wire SPI descriptor. -/
theorem upload_commands_precede_data_witness :
    (ssd1306_load_frame_buffer devSPI4 (some [1, 2, 3]) (Bus.init envZero)).2.trace =
      seqEvents devSPI4 (addressingCmds devSPI4)
        ++ dataEvents devSPI4 (framePayload devSPI4 (some [1, 2, 3])) ∧
    (ssd1306_load_xbm devSPI4 [5] (Bus.init envZero)).2.trace =
      seqEvents devSPI4 (addressingCmds devSPI4)
        ++ dataEvents devSPI4 (ssd1306_load_xbm_convert devSPI4 [5]) :=
  upload_commands_precede_data devSPI4 envZero (some [1, 2, 3]) [5]
    (by decide) (fun _ => rfl)

/-- Claim C8: for every operation of the public interface and every
point `k` at which the bus layer first reports a failure, the
operation attempts exactly the `k+1` bus transactions up to and
including the failing one (no retry, remainder aborted - the trace is
that of the first `k+1` steps only) and returns the bus layer's result
code `env k` verbatim. -/
theorem bus_failure_aborts_verbatim (op : Op) (dev : ssd1306_t)
    (env : Nat → Int) (k : Nat)
    (hp : dev.protocol ≠ .SSD1306_PROTO_SPI3)
    (hk : k < (opSteps dev op).length)
    (hok : ∀ i, i < k → env i = 0) (hf : env k ≠ 0) :
    (runOp op dev (Bus.init env)).1 = env k ∧
    (runOp op dev (Bus.init env)).2.idx = k + 1 ∧
    (runOp op dev (Bus.init env)).2.trace
      = stepsEvents (List.take (k + 1) (opSteps dev op)) := by
  rw [runOp_eq_gchain op dev hp]
  have h := gchain_fail (opSteps dev op) (Bus.init env) k hk
    (fun j hj => by simpa [Bus.init] using hok j hj)
    (by simpa [Bus.init] using hf)
  rw [h]
  simp [Bus.init]

/-- Witness for C8: bulk upload on a concrete I2C device with the bus
failing at transaction index 3 with code 7. -/
theorem bus_failure_aborts_verbatim_witness :
    ((3 : Nat) < (opSteps devI2C (.load_frame_buffer none)).length) ∧
    ((runOp (.load_frame_buffer none) devI2C (Bus.init envFail3)).1 = envFail3 3 ∧
     (runOp (.load_frame_buffer none) devI2C (Bus.init envFail3)).2.idx = 3 + 1 ∧
     (runOp (.load_frame_buffer none) devI2C (Bus.init envFail3)).2.trace
       = stepsEvents (List.take (3 + 1) (opSteps devI2C (.load_frame_buffer none)))) :=
  ⟨by decide,
   bus_failure_aborts_verbatim (.load_frame_buffer none) devI2C envFail3 3
     (by decide) (by decide) (by decide) (by decide)⟩

/-- Claim C9: `ssd1306_clear_screen` is exactly
`ssd1306_load_frame_buffer` with an absent buffer - same result code
and same bus state (hence same bus traffic) on every bus; this is the
inline definition at ssd1306.h lines 103-106. -/
theorem clear_screen_is_load_frame_buffer_null (dev : ssd1306_t) (b : Bus) :
    ssd1306_clear_screen dev b = ssd1306_load_frame_buffer dev none b := rfl

theorem getD_range_map (n i : Nat) (f : Nat → Nat) :
    ((List.range n).map f).getD i 0 = if i < n then f i else 0 := by
  by_cases hi : i < n
  · simp [List.getD_eq_getElem?_getD, List.getElem?_map, List.getElem?_range, hi]
  · rw [if_neg hi, List.getD_eq_getElem?_getD, List.getElem?_eq_none]
    · rfl
    · simpa using Nat.le_of_not_lt hi

theorem euclid_unique {m a b x y : Nat} (ha : a < m) (hb : b < m) :
    x * m + a = y * m + b ↔ x = y ∧ a = b := by
  constructor
  · intro h
    have hm : 0 < m := Nat.lt_of_le_of_lt (Nat.zero_le a) ha
    have hx : (x * m + a) / m = x := by
      rw [Nat.add_comm, Nat.add_mul_div_right _ _ hm, Nat.div_eq_of_lt ha, Nat.zero_add]
    have hy : (y * m + b) / m = y := by
      rw [Nat.add_comm, Nat.add_mul_div_right _ _ hm, Nat.div_eq_of_lt hb, Nat.zero_add]
    have hxy : x = y := by rw [← hx, ← hy, h]
    refine ⟨hxy, ?_⟩
    subst hxy
    exact Nat.add_left_cancel h
  · rintro ⟨rfl, rfl⟩
    rfl

theorem shift_bit_eq : ∀ a, a < 8 → ∀ b, b < 8 →
    ((1 <<< a) >>> b) % 2 = if a = b then 1 else 0 := by decide

theorem xbmBit_single (w h r c r' c' : Nat) (h8 : w % 8 = 0) (hw0 : 0 < w)
    (hr : r < h) (hc : c < w) (hr' : r' < h) (hc' : c' < w) :
    xbmBit (singlePixelXbm w h r c) w r' c' = if r' = r ∧ c' = c then 1 else 0 := by
  have hcw : c / 8 < (w + 7) / 8 := by omega
  have hcw' : c' / 8 < (w + 7) / 8 := by omega
  have hidx : r' * ((w + 7) / 8) + c' / 8 < h * ((w + 7) / 8) := by
    calc r' * ((w + 7) / 8) + c' / 8
        < r' * ((w + 7) / 8) + (w + 7) / 8 := Nat.add_lt_add_left hcw' _
      _ = (r' + 1) * ((w + 7) / 8) := by ring
      _ ≤ h * ((w + 7) / 8) := Nat.mul_le_mul_right _ hr'
  unfold xbmBit singlePixelXbm
  rw [getD_range_map, if_pos hidx]
  by_cases heq : r' * ((w + 7) / 8) + c' / 8 = r * ((w + 7) / 8) + c / 8
  · rw [if_pos heq]
    obtain ⟨hrr, hcc8⟩ := (euclid_unique hcw' hcw).mp heq
    rw [shift_bit_eq (c % 8) (by omega) (c' % 8) (by omega)]
    subst hrr
    by_cases hcc : c' = c
    · subst hcc
      simp
    · have hne : ¬(c % 8 = c' % 8) := by omega
      simp [hne, hcc]
  · rw [if_neg heq]
    have hne : ¬(r' = r ∧ c' = c) := by
      rintro ⟨rfl, rfl⟩
      exact heq rfl
    simp [hne, Nat.zero_shiftRight]

theorem xbmByte_single (w h r c p c' : Nat) (h8w : w % 8 = 0) (h8h : h % 8 = 0)
    (hw0 : 0 < w) (hr : r < h) (hc : c < w) (hph : p < h / 8) (hc' : c' < w) :
    xbmByte (singlePixelXbm w h r c) w p c'
      = if p = r / 8 ∧ c' = c then 1 <<< (r % 8) else 0 := by
  obtain ⟨q, m, hm8, rfl⟩ : ∃ q m, m < 8 ∧ r = 8 * q + m :=
    ⟨r / 8, r % 8, by omega, by omega⟩
  have hB : ∀ k, k < 8 → xbmBit (singlePixelXbm w h (8 * q + m) c) w (8 * p + k) c'
      = if 8 * p + k = 8 * q + m ∧ c' = c then 1 else 0 := fun k hk =>
    xbmBit_single w h (8 * q + m) c (8 * p + k) c' h8w hw0 hr hc (by omega) hc'
  have e0 := hB 0 (by omega)
  have e1 := hB 1 (by omega)
  have e2 := hB 2 (by omega)
  have e3 := hB 3 (by omega)
  have e4 := hB 4 (by omega)
  have e5 := hB 5 (by omega)
  have e6 := hB 6 (by omega)
  have e7 := hB 7 (by omega)
  unfold xbmByte
  rw [(by decide : List.range 8 = [0, 1, 2, 3, 4, 5, 6, 7])]
  simp only [List.foldr_cons, List.foldr_nil]
  rw [e0, e1, e2, e3, e4, e5, e6, e7]
  rw [(by omega : (8 * q + m) / 8 = q), (by omega : (8 * q + m) % 8 = m)]
  by_cases hcc : c' = c
  · subst hcc
    simp only [eq_self_iff_true, and_true]
    by_cases hpq : p = q
    · subst hpq
      simp only [add_right_inj]
      interval_cases m <;> decide
    · have hne : ∀ k, k < 8 → ¬(8 * p + k = 8 * q + m) := by
        intro k hk
        omega
      have hne0 : ¬(8 * p = 8 * q + m) := by omega
      simp [hne, hne0, hpq]
  · simp [hcc]

theorem convert_index_split {w : Nat} (hw0 : 0 < w) (i rq c : Nat) (hc : c < w) :
    (i = c + rq * w) ↔ (i / w = rq ∧ i % w = c) := by
  constructor
  · rintro rfl
    constructor
    · rw [Nat.add_mul_div_right _ _ hw0, Nat.div_eq_of_lt hc, Nat.zero_add]
    · rw [Nat.add_mul_mod_self_right, Nat.mod_eq_of_lt hc]
  · rintro ⟨h1, h2⟩
    rw [← h1, ← h2]
    exact (Nat.mod_add_div' i w).symm

/-- Claim C1: for every supported panel geometry and every lit pixel
position (r, c), the Bitmap Converter applied to the single-pixel XBM
source produces a buffer of length `width*height/8` that is everywhere
zero except for the single byte at index `c + (r/8)*width`, whose value
`2^(r%8)` has exactly the one bit at position `r % 8` set. -/
theorem load_xbm_single_pixel_roundtrip (w h r c : Nat)
    (hw : w = 96 ∨ w = 128) (hh : h = 16 ∨ h = 32 ∨ h = 64)
    (hr : r < h) (hc : c < w) :
    (ssd1306_load_xbm_convert ⟨.SSD1306_PROTO_I2C, 0x3C, 0, 0, w, h⟩
        (singlePixelXbm w h r c)).length = w * h / 8 ∧
    ssd1306_load_xbm_convert ⟨.SSD1306_PROTO_I2C, 0x3C, 0, 0, w, h⟩
        (singlePixelXbm w h r c) =
      (List.range (w * h / 8)).map
        (fun i => if i = c + (r / 8) * w then 2 ^ (r % 8) else 0) := by
  have h8w : w % 8 = 0 := by rcases hw with rfl | rfl <;> decide
  have h8h : h % 8 = 0 := by rcases hh with rfl | rfl | rfl <;> decide
  have hw0 : 0 < w := by omega
  have hlen : h / 8 * w = w * h / 8 := by
    rcases hw with rfl | rfl <;> rcases hh with rfl | rfl | rfl <;> decide
  constructor
  · simp [ssd1306_load_xbm_convert, hlen]
  · dsimp only [ssd1306_load_xbm_convert]
    rw [hlen]
    refine List.map_congr_left ?_
    intro i hi
    rw [List.mem_range] at hi
    have hpw : i / w < h / 8 := by
      rw [Nat.div_lt_iff_lt_mul hw0, hlen]
      exact hi
    rw [xbmByte_single w h r c (i / w) (i % w) h8w h8h hw0 hr hc hpw
      (Nat.mod_lt _ hw0)]
    rw [Nat.one_shiftLeft]
    simp only [convert_index_split hw0 i (r / 8) c hc]

/-- Witness for C1 on a 96x16 panel with the lit pixel at row 3,
column 5. -/
theorem load_xbm_single_pixel_roundtrip_witness :
    (ssd1306_load_xbm_convert ⟨.SSD1306_PROTO_I2C, 0x3C, 0, 0, 96, 16⟩
        (singlePixelXbm 96 16 3 5)).length = 96 * 16 / 8 ∧
    ssd1306_load_xbm_convert ⟨.SSD1306_PROTO_I2C, 0x3C, 0, 0, 96, 16⟩
        (singlePixelXbm 96 16 3 5) =
      (List.range (96 * 16 / 8)).map
        (fun i => if i = 5 + (3 / 8) * 96 then 2 ^ (3 % 8) else 0) :=
  load_xbm_single_pixel_roundtrip 96 16 3 5 (Or.inl rfl) (Or.inl rfl)
    (by decide) (by decide)

theorem mem_convertReads (dev : ssd1306_t) (j : Nat) :
    j ∈ convertReads dev ↔ ∃ i, i < dev.height / 8 * dev.width ∧ ∃ k, k < 8 ∧
      j = (8 * (i / dev.width) + k) * ((dev.width + 7) / 8) + (i % dev.width) / 8 := by
  constructor
  · intro hj
    simp only [convertReads, List.mem_flatten, List.mem_map, List.mem_range] at hj
    obtain ⟨l, ⟨a, ha, rfl⟩, hjl⟩ := hj
    simp only [List.mem_map, List.mem_range] at hjl
    obtain ⟨k, hk, rfl⟩ := hjl
    exact ⟨a, ha, k, hk, rfl⟩
  · rintro ⟨i, hi, k, hk, rfl⟩
    simp only [convertReads, List.mem_flatten, List.mem_map, List.mem_range]
    refine ⟨_, ⟨i, hi, rfl⟩, ?_⟩
    simp only [List.mem_map, List.mem_range]
    exact ⟨k, hk, rfl⟩

/-- Claim C2: for every supported panel geometry, every source-buffer
byte index the Bitmap Converter reads is strictly below
`width*height/8` (the converter reads no destination bytes at all: the
destination is written functionally), and the destination buffer it
writes has exactly `width*height/8` bytes. -/
theorem converter_reads_within_bound (dev : ssd1306_t) (xbm : List Nat) (j : Nat)
    (hw : dev.width = 96 ∨ dev.width = 128)
    (hh : dev.height = 16 ∨ dev.height = 32 ∨ dev.height = 64)
    (hj : j ∈ convertReads dev) :
    j < dev.width * dev.height / 8 ∧
    (ssd1306_load_xbm_convert dev xbm).length = dev.width * dev.height / 8 := by
  obtain ⟨proto, ad, cs, dc, w, h⟩ := dev
  simp only at hw hh
  rw [mem_convertReads] at hj
  obtain ⟨i, hi, k, hk, rfl⟩ := hj
  simp only at hi ⊢
  constructor
  · rcases hw with rfl | rfl <;> rcases hh with rfl | rfl | rfl <;> omega
  · rcases hw with rfl | rfl <;> rcases hh with rfl | rfl | rfl <;>
      simp [ssd1306_load_xbm_convert]

/-- Witness for C2: the first index read on a 96x16 panel. -/
theorem converter_reads_within_bound_witness :
    (0 : Nat) < devI2C.width * devI2C.height / 8 ∧
    (ssd1306_load_xbm_convert devI2C []).length = devI2C.width * devI2C.height / 8 :=
  converter_reads_within_bound devI2C [] 0 (Or.inl rfl) (Or.inl rfl)
    ((mem_convertReads devI2C 0).mpr ⟨0, by decide, 0, by decide, by decide⟩)

end SSD1306
